import Mathlib

/-!
Shallow embedding of the filtering / derivation / aggregation core of the
house-price dashboard (source files: src/app.py, the simple variant, and
src/dashboard.py, the extended variant).

Modelling conventions:
* A calendar date is an `Int` (a serial day number); `pd.to_datetime` with the
  fixed format is modelled by its result, an `Option Int` cell (`none` means
  the cell failed to parse).
* A numeric cell after `pd.to_numeric(..., errors='coerce')` (with the
  thousands-separator strip of the extended variant) is modelled by its
  result, an `Option ℚ` (`none` is NaN, i.e. a missing or unparseable value).
* Prices and percentages are exact rationals; the floating-point rounding of
  the source is not modelled.
-/

namespace HPI

/-- One loaded dataset row.  Fields mirror the columns the two variants read:
`RegionName`, `Date`, `AveragePrice`, `12m%Change` and, in the extended
variant, `SemiDetachedPrice`, `TerracedPrice`, `FlatPrice`, `FTBPrice`,
`FTBIndex`, `FTB12m%Change`.  Nullable numeric columns are `Option ℚ`. -/
structure Record where
  regionName : String
  date : Int
  averagePrice : Option ℚ
  twelveMonthChangePercent : Option ℚ
  semiDetachedPrice : Option ℚ
  terracedPrice : Option ℚ
  flatPrice : Option ℚ
  ftbPrice : Option ℚ
  ftbIndex : Option ℚ
  ftbTwelveMonthChangePercent : Option ℚ
deriving DecidableEq

/-- Build a record with only the four core columns set. -/
def mkRec (region : String) (d : Int) (price chg : Option ℚ) : Record :=
  ⟨region, d, price, chg, none, none, none, none, none, none⟩

/-- One raw CSV row, with each cell already carrying the result of the
per-cell conversion the loaders apply (`None` marks a missing value, a date
cell that does not parse under `%d/%m/%Y`, or a numeric cell that
`pd.to_numeric(..., errors='coerce')` turns into NaN). -/
structure RawRow where
  regionCell : Option String
  dateCell : Option Int
  priceCell : Option ℚ
  changeCell : Option ℚ
  semiCell : Option ℚ
  terrCell : Option ℚ
  flatCell : Option ℚ
  ftbPriceCell : Option ℚ
  ftbIndexCell : Option ℚ
  ftbChangeCell : Option ℚ
deriving DecidableEq

/-- The record a raw row yields once its region and date cells are known to
be present. -/
def RawRow.toRecord (r : RawRow) (name : String) (d : Int) : Record :=
  ⟨name, d, r.priceCell, r.changeCell, r.semiCell, r.terrCell, r.flatCell,
    r.ftbPriceCell, r.ftbIndexCell, r.ftbChangeCell⟩

/-- Loader of the simple variant (src/app.py, `load_data`, lines 16-33):
`pd.to_datetime(df['Date'], format='%d/%m/%Y')` is called with the default
`errors='raise'`, so one unparseable date cell aborts the whole load with an
exception (modelled as `Except.error`); afterwards rows with a missing
`RegionName` are dropped and the numeric columns are coerced. -/
def app_load_data (rows : List RawRow) : Except String (List Record) :=
  if rows.any (fun r => r.dateCell.isNone) then
    Except.error "time data does not match format (to_datetime raised)"
  else
    Except.ok (rows.filterMap (fun r =>
      match r.regionCell, r.dateCell with
      | some name, some d => some (r.toRecord name d)
      | _, _ => none))

/-- Loader of the extended variant (src/dashboard.py, `load_data`, lines
44-67): `pd.to_datetime(..., errors='coerce')` turns unparseable dates into
NaT, then `dropna(subset=['Date', 'RegionName'])` drops those rows together
with rows missing a region; numeric columns are comma-stripped and coerced.
The load is total: no row can make it fail. -/
def dash_load_data (rows : List RawRow) : List Record :=
  rows.filterMap (fun r =>
    match r.regionCell, r.dateCell with
    | some name, some d => some (r.toRecord name d)
    | _, _ => none)

/-- The boolean-mask selection of both variants (src/app.py lines 80-84,
src/dashboard.py lines 132-136) before the sort:
`df[(df['RegionName'] == region) & (df['Date'] >= start) & (df['Date'] <= end)]`.
String comparison of `RegionName` is exact and case-sensitive; the date range
is inclusive at both ends.  The mask preserves the original row order. -/
def filtered_df_unsorted (df : List Record) (selected_region : String)
    (start_date end_date : Int) : List Record :=
  df.filter (fun r =>
    decide (r.regionName = selected_region ∧
      start_date ≤ r.date ∧ r.date ≤ end_date))

/-- Rows are sorted non-decreasing by their `date` field. -/
def SortedByDate (l : List Record) : Prop :=
  List.Sorted (fun a b => a.date ≤ b.date) l

/-- Contract of `DataFrame.sort_values(by='Date')` as both variants call it
(src/app.py line 84, src/dashboard.py line 136): the result is a permutation
of the input rows that is sorted non-decreasing by `Date`.  The call uses the
default `kind='quicksort'`, which pandas documents as not stable, so the
relative order of equal-date rows is not specified by the contract and the
sort is modelled as this relation rather than as one fixed function. -/
def sort_values_res (l out : List Record) : Prop :=
  l.Perm out ∧ SortedByDate out

/-- The complete filter pipeline of both variants as a relation: `out` is a
possible value of `filtered_df` for the given dataset and criteria. -/
def filtered_df_res (df : List Record) (selected_region : String)
    (start_date end_date : Int) (out : List Record) : Prop :=
  sort_values_res (filtered_df_unsorted df selected_region start_date end_date) out

/-- Resolution of the date-range widget value (src/app.py lines 71-77,
src/dashboard.py lines 123-128): a two-element selection is used exactly as
supplied; any other shape (the single-sided case) falls back to the
dataset's full `[min_date, max_date]` bounds. -/
def resolve_date_range : List Int → Int → Int → Int × Int
  | [s, e], _, _ => (s, e)
  | _, min_date, max_date => (min_date, max_date)

/-- The outcome of one request in the simple variant after filtering
(src/app.py lines 87-89): an empty `filtered_df` produces the distinct
"no data available" message and `st.stop()` (a normal early exit, not an
exception); otherwise the dashboard body is rendered.  Emptiness of the
sorted frame equals emptiness of the unsorted selection. -/
inductive Outcome
  | noData
  | rendered
deriving DecidableEq

/-- Request outcome of the simple variant for a dataset and criteria. -/
def app_outcome (df : List Record) (selected_region : String)
    (start_date end_date : Int) : Outcome :=
  if (filtered_df_unsorted df selected_region start_date end_date).isEmpty then
    Outcome.noData
  else
    Outcome.rendered

/-- Result of the period-change metric of the simple variant: a computed
percentage, the "Insufficient Data" label, or the
"N/A (Need more data points)" label (both labels are the spec's
insufficient-data sentinels). -/
inductive PeriodChange
  | value (q : ℚ)
  | insufficientData
  | needMoreData
deriving DecidableEq

/-- Period-change metric of the simple variant (src/app.py lines 126-144):
when the filtered view has more than one row, read `AveragePrice` of
`iloc[0]` and `iloc[-1]` (the first and last rows of the whole date-sorted
view, with no restriction to rows whose price is non-null); if both are
non-NaN and the start price is nonzero, compute
`((end_price - start_price) / start_price) * 100`, else show
"Insufficient Data"; a view of at most one row shows
"N/A (Need more data points)". -/
def total_change_percent (view : List Record) : PeriodChange :=
  if 1 < view.length then
    match view.head?.bind Record.averagePrice,
        (view.getLast?).bind Record.averagePrice with
    | some start_price, some end_price =>
      if start_price ≠ 0 then
        PeriodChange.value (((end_price - start_price) / start_price) * 100)
      else
        PeriodChange.insufficientData
    | _, _ => PeriodChange.insufficientData
  else
    PeriodChange.needMoreData

/-- Maximum of the `Date` column, `filtered_df['Date'].max()`
(src/dashboard.py line 143); `none` on an empty frame. -/
def latest_date : List Record → Option Int
  | [] => none
  | r :: t =>
    some (match latest_date t with
      | none => r.date
      | some m => max r.date m)

/-- Rows of the extended variant attaining the maximum date,
`filtered_df[filtered_df['Date'] == latest_date]` (src/dashboard.py
line 144). -/
def latest_data_rows (view : List Record) : List Record :=
  match latest_date view with
  | none => []
  | some m => view.filter (fun r => decide (r.date = m))

/-- The latest-period row of the extended variant,
`latest_data_rows.iloc[0]` (src/dashboard.py line 150): the first row of the
view, in its sorted order, whose date attains the maximum.  No restriction
to rows with a non-null `AveragePrice` is applied. -/
def latest_data_row (view : List Record) : Option Record :=
  (latest_data_rows view).head?

/-- A rendered metric of the extended variant: a value or the "N/A" label. -/
inductive MetricVal
  | value (q : ℚ)
  | na
deriving DecidableEq

/-- The "Avg Price (All)" metric of the extended variant (src/dashboard.py
lines 214-222): `latest_data_row['AveragePrice']`, shown as a value unless it
is NaN, in which case "N/A" is shown. -/
def latest_price_metric (view : List Record) : MetricVal :=
  match latest_data_row view with
  | none => MetricVal.na
  | some r =>
    match r.averagePrice with
    | none => MetricVal.na
    | some p => MetricVal.value p

/-- The "Annual Change" metric of the extended variant (src/dashboard.py
lines 224-234): `latest_data_row['12m%Change']` with the same NaN guard. -/
def annual_change_metric (view : List Record) : MetricVal :=
  match latest_data_row view with
  | none => MetricVal.na
  | some r =>
    match r.twelveMonthChangePercent with
    | none => MetricVal.na
    | some p => MetricVal.value p

/-- The static region hierarchy of the extended variant, transcribed from
`REGION_HIERARCHY` (src/dashboard.py lines 17-39). -/
def REGION_HIERARCHY : List (String × List String) :=
  [("Nottinghamshire",
    ["Nottingham", "Rushcliffe", "Broxtowe", "Gedling",
     "Newark and Sherwood", "Mansfield", "Ashfield", "Bassetlaw",
     "Nottinghamshire"]),
   ("Derbyshire",
    ["Derby", "Amber Valley", "Bolsover", "Chesterfield",
     "Derbyshire Dales", "Erewash", "High Peak",
     "North East Derbyshire", "South Derbyshire"]),
   ("London",
    ["London", "Barking and Dagenham", "Barnet", "Bexley", "Brent",
     "Bromley", "Camden", "City of London", "Croydon", "Ealing",
     "Enfield", "Greenwich", "Hackney", "Hammersmith and Fulham",
     "Haringey", "Harrow", "Havering", "Hillingdon", "Hounslow",
     "Islington", "Kensington and Chelsea", "Kingston upon Thames",
     "Lambeth", "Lewisham", "Merton", "Newham", "Redbridge",
     "Richmond upon Thames", "Southwark", "Sutton", "Tower Hamlets",
     "Waltham Forest", "Wandsworth", "Westminster"]),
   ("All Data", [])]

/-- Python's `sorted` on a list of strings: ascending lexicographic order. -/
def sortedStr (l : List String) : List String :=
  l.insertionSort (fun a b => a ≤ b)

/-- Child-region resolution of the extended variant (src/dashboard.py lines
99-104): for the "All Data" sentinel, `sorted(df['RegionName'].unique())`
(the sorted distinct region names of the dataset); for any other parent,
`sorted(REGION_HIERARCHY[selected_parent])` (its declared child list,
sorted; a `KeyError` on an unknown parent is modelled as `none`).  The
simple variant's single-level list `all_regions`
(src/app.py line 47) is exactly the "All Data" branch. -/
def available_cities (selected_parent : String) (df : List Record) :
    Option (List String) :=
  if selected_parent = "All Data" then
    some (sortedStr ((df.map Record.regionName).dedup))
  else
    (REGION_HIERARCHY.lookup selected_parent).map sortedStr

/-- Rows of a view whose `averagePrice` is non-null.  This definition follows
the words of the spec's metric contract ("rows with a non-null
averagePrice"), for comparison against what the code computes. -/
def spec_qualifying (view : List Record) : List Record :=
  view.filter (fun r => r.averagePrice.isSome)

/-- The spec's earliest qualifying price: the price of the first
non-null-price row of the date-sorted view. -/
def spec_earliest_qualifying_price (view : List Record) : Option ℚ :=
  (spec_qualifying view).head?.bind Record.averagePrice

/-- The spec's latest qualifying price: the price of the last
non-null-price row of the date-sorted view. -/
def spec_latest_qualifying_price (view : List Record) : Option ℚ :=
  (spec_qualifying view).getLast?.bind Record.averagePrice

/-- The spec's latest-period row: among rows with a non-null `averagePrice`,
the one with the maximum date, taking the first of the view's order when
several share that date.  This follows the claim's words, for comparison
against `latest_data_row`. -/
def spec_latest_qualifying_row (view : List Record) : Option Record :=
  match latest_date (spec_qualifying view) with
  | none => none
  | some m => ((spec_qualifying view).filter (fun r => decide (r.date = m))).head?

/-! Concrete datasets and views used by witnesses and counterexamples. -/

/-- A record of region "X" at date 1 with price 100. -/
def recX1 : Record := mkRec "X" 1 (some 100) (some 2)

/-- A record of region "Y" at date 2 with price 50. -/
def recY2 : Record := mkRec "Y" 2 (some 50) none

/-- A record of region "X" at date 3 with price 110. -/
def recX3 : Record := mkRec "X" 3 (some 110) none

/-- A three-record dataset over two regions. -/
def dsW : List Record := [recX1, recY2, recX3]

/-- The selection of region "X" over `[0, 10]` from `dsW`; it is already in
date order. -/
def outW : List Record := filtered_df_unsorted dsW "X" 0 10

/-- A date-sorted view whose first row has a null price and whose two later
rows carry prices 100 and 110. -/
def viewC2 : List Record :=
  [mkRec "X" 1 none none, mkRec "X" 2 (some 100) none, mkRec "X" 3 (some 110) none]

/-- Scenario A's view: prices 100000 and 110000 at the two endpoint dates. -/
def viewA : List Record :=
  [mkRec "X" 100 (some 100000) none, mkRec "X" 200 (some 110000) none]

/-- A date-sorted view whose maximum-date row has a null price while an
earlier row has price 100. -/
def viewC3 : List Record :=
  [mkRec "X" 1 (some 100) none, mkRec "X" 2 none none]

/-- A date-sorted view whose earliest qualifying price is 0. -/
def viewC6 : List Record :=
  [mkRec "X" 1 (some 0) none, mkRec "X" 2 (some 5) none]

/-- A raw row whose date cell fails to parse. -/
def rawBad : RawRow :=
  ⟨some "X", none, none, none, none, none, none, none, none, none⟩

/-- A raw row that parses completely. -/
def rawGood : RawRow :=
  ⟨some "X", some 1, some 100, some 2, none, none, none, none, none, none⟩

/-! Helper lemmas. -/

/-- Membership in the unsorted selection: exactly the dataset's rows whose
region matches exactly and whose date lies in the inclusive range. -/
lemma mem_filtered_df_unsorted {df : List Record} {region : String}
    {s e : Int} {r : Record} :
    r ∈ filtered_df_unsorted df region s e ↔
      r ∈ df ∧ r.regionName = region ∧ s ≤ r.date ∧ r.date ≤ e := by
  simp [filtered_df_unsorted, List.mem_filter]

/-- Characterisation of a computed (non-sentinel) period change: the view has
more than one row, the first and last rows of the view carry non-null prices,
the first is nonzero, and the value is the percentage formula. -/
lemma total_change_percent_eq_value_iff {view : List Record} {q : ℚ} :
    total_change_percent view = PeriodChange.value q ↔
      ∃ sp ep, view.head?.bind Record.averagePrice = some sp ∧
        (view.getLast?).bind Record.averagePrice = some ep ∧
        1 < view.length ∧ sp ≠ 0 ∧ q = ((ep - sp) / sp) * 100 := by
  constructor
  · intro hE
    unfold total_change_percent at hE
    split at hE
    · rename_i hlen
      split at hE
      · rename_i sp ep hsp hep
        split at hE
        · rename_i hz
          exact ⟨sp, ep, hsp, hep, hlen, hz, (PeriodChange.value.injEq _ _ ▸ hE).symm⟩
        · exact absurd hE (by simp)
      · exact absurd hE (by simp)
    · exact absurd hE (by simp)
  · rintro ⟨sp, ep, hsp, hep, hlen, hz, rfl⟩
    unfold total_change_percent
    rw [if_pos hlen, hsp, hep]
    simp [hz]

/-- If the view's first row carries a non-null price, that price is also the
spec's earliest qualifying price. -/
lemma spec_earliest_of_head {view : List Record} {sp : ℚ}
    (h : view.head?.bind Record.averagePrice = some sp) :
    spec_earliest_qualifying_price view = some sp := by
  rcases Option.bind_eq_some.mp h with ⟨r, hr, hp⟩
  rcases List.head?_eq_some_iff.mp hr with ⟨t, rfl⟩
  simp [spec_earliest_qualifying_price, spec_qualifying, List.filter_cons,
    Option.isSome_iff_exists.mpr ⟨sp, hp⟩, hp]

/-- `latest_date` is `none` exactly on the empty view. -/
lemma latest_date_eq_none_iff {view : List Record} :
    latest_date view = none ↔ view = [] := by
  cases view <;> simp [latest_date]

/-- Every row's date is bounded by `latest_date`. -/
lemma latest_date_le {view : List Record} {m : Int} {r : Record}
    (h : latest_date view = some m) (hr : r ∈ view) : r.date ≤ m := by
  induction view generalizing m with
  | nil => cases hr
  | cons a t ih =>
    rcases List.mem_cons.mp hr with rfl | hrt
    · cases ht : latest_date t with
      | none =>
        simp [latest_date, ht] at h
        omega
      | some mt =>
        simp [latest_date, ht] at h
        have := le_max_left r.date mt
        omega
    · cases ht : latest_date t with
      | none => cases latest_date_eq_none_iff.mp ht; cases hrt
      | some mt =>
        have h1 := ih ht hrt
        simp [latest_date, ht] at h
        have := le_max_right a.date mt
        omega

/-- `latest_date` is attained by some row of the view. -/
lemma latest_date_attained {view : List Record} {m : Int}
    (h : latest_date view = some m) : ∃ r ∈ view, r.date = m := by
  induction view generalizing m with
  | nil => simp [latest_date] at h
  | cons a t ih =>
    cases ht : latest_date t with
    | none =>
      simp [latest_date, ht] at h
      exact ⟨a, List.mem_cons_self a t, h⟩
    | some mt =>
      simp [latest_date, ht] at h
      rcases le_total a.date mt with hle | hle
      · rw [max_eq_right hle] at h
        rcases ih ht with ⟨r, hrt, hrm⟩
        exact ⟨r, List.mem_cons_of_mem a hrt, by omega⟩
      · rw [max_eq_left hle] at h
        exact ⟨a, List.mem_cons_self a t, h⟩

/-- On a non-empty view, the extended variant's latest-period row exists, is
a row of the view, and has the maximal date. -/
lemma latest_data_row_spec {view : List Record} (hne : view ≠ []) :
    ∃ r, latest_data_row view = some r ∧ r ∈ view ∧
      (∀ x ∈ view, x.date ≤ r.date) ∧
      latest_data_rows view ≠ [] := by
  cases hm : latest_date view with
  | none => exact absurd (latest_date_eq_none_iff.mp hm) hne
  | some m =>
    rcases latest_date_attained hm with ⟨r0, hr0, hr0m⟩
    have hmem : r0 ∈ latest_data_rows view := by
      simp [latest_data_rows, hm, List.mem_filter, hr0, hr0m]
    have hrows : latest_data_rows view ≠ [] := List.ne_nil_of_mem hmem
    rcases hcons : latest_data_rows view with _ | ⟨b, t⟩
    · exact absurd hcons hrows
    · have hb : b ∈ latest_data_rows view := by
        rw [hcons]; exact List.mem_cons_self b t
      have hb2 : b ∈ view ∧ b.date = m := by
        simpa [latest_data_rows, hm, List.mem_filter] using hb
      refine ⟨b, ?_, hb2.1, ?_, by simp⟩
      · simp [latest_data_row, hcons]
      · intro x hx
        have := latest_date_le hm hx
        omega

/-! Claim theorems. -/

/-- Claim C1: for every dataset and filter criteria, every record of the
filter result has `regionName` exactly (case-sensitively) equal to the
requested region and a date inside the inclusive `[startDate, endDate]`
range, and the result is sorted non-decreasing by date. -/
theorem filter_matches_region_range_and_is_sorted
    (df : List Record) (region : String) (s e : Int) (out : List Record)
    (h : filtered_df_res df region s e out) :
    SortedByDate out ∧
      ∀ r ∈ out, r.regionName = region ∧ s ≤ r.date ∧ r.date ≤ e := by
  refine ⟨h.2, fun r hr => ?_⟩
  have hmem : r ∈ filtered_df_unsorted df region s e := h.1.mem_iff.mpr hr
  exact (mem_filtered_df_unsorted.mp hmem).2

/-- Witness for C1 at a concrete dataset and criteria. -/
theorem filter_matches_region_range_and_is_sorted_witness :
    SortedByDate outW ∧
      ∀ r ∈ outW, r.regionName = "X" ∧ 0 ≤ r.date ∧ r.date ≤ 10 :=
  filter_matches_region_range_and_is_sorted dsW "X" 0 10 outW
    ⟨List.Perm.refl _,
     (by decide : List.Pairwise (fun a b => a.date ≤ b.date) outW)⟩

/-- Claim C2 counterexample: `viewC2` has two rows with non-null prices
(100 and 110, its earliest and latest qualifying prices, and 100 is
nonzero), so the claim predicts the computed value 10; the code instead
reads the price of the view's very first row, which is null, and reports
the insufficient-data sentinel. -/
theorem period_change_endpoints_counterexample :
    (spec_qualifying viewC2).length = 2 ∧
    spec_earliest_qualifying_price viewC2 = some 100 ∧
    spec_latest_qualifying_price viewC2 = some 110 ∧
    (100 : ℚ) ≠ 0 ∧
    total_change_percent viewC2 = PeriodChange.insufficientData ∧
    PeriodChange.insufficientData ≠
      PeriodChange.value (((110 - 100) / 100) * 100) := by
  refine ⟨rfl, rfl, rfl, by norm_num, rfl, by simp⟩

/-- Claim C2 (amended): the period change is a computed value exactly when
the view has at least two rows, the prices of the first and of the last row
of the whole view (not of the earliest/latest rows among non-null-price
rows) are non-null, and the first is nonzero; the value is then
`((endPrice - startPrice) / startPrice) * 100`.  Every other case is an
insufficient-data sentinel. -/
theorem period_change_formula (view : List Record) (q : ℚ) :
    total_change_percent view = PeriodChange.value q ↔
      ∃ sp ep, view.head?.bind Record.averagePrice = some sp ∧
        (view.getLast?).bind Record.averagePrice = some ep ∧
        1 < view.length ∧ sp ≠ 0 ∧ q = ((ep - sp) / sp) * 100 :=
  total_change_percent_eq_value_iff

/-- Witness for C2 at Scenario A's view: prices 100000 then 110000 yield a
period change of exactly 10. -/
theorem period_change_formula_witness :
    total_change_percent viewA = PeriodChange.value 10 :=
  (period_change_formula viewA 10).mpr
    ⟨100000, 110000, rfl, rfl, by decide, by norm_num, by norm_num⟩

/-- Claim C3 counterexample: in `viewC3` the maximum-date row has a null
price while an earlier row carries price 100; the claim's selection rule
(latest among rows with non-null price) picks the price-100 row, but the
code selects the max-date row regardless and reports the latest price as
unavailable even though a non-null price exists. -/
theorem latest_row_selection_counterexample :
    spec_latest_qualifying_row viewC3 = some (mkRec "X" 1 (some 100) none) ∧
    (mkRec "X" 1 (some 100) none).averagePrice = some 100 ∧
    latest_data_row viewC3 = some (mkRec "X" 2 none none) ∧
    (mkRec "X" 2 none none).averagePrice = none ∧
    latest_price_metric viewC3 = MetricVal.na ∧
    MetricVal.na ≠ MetricVal.value 100 := by
  refine ⟨rfl, rfl, rfl, rfl, rfl, by simp⟩

/-- Claim C3 (amended): on a non-empty view, the latest-period row is
selected among all rows (rows with a null `averagePrice` are not excluded)
as one attaining the maximum date — the first such row of the view's order —
and the latest-price metric is that row's price when non-null and the
"N/A" sentinel (never a zero default) when that row's price is null. -/
theorem latest_row_is_max_date_row (view : List Record) (hne : view ≠ []) :
    ∃ r, latest_data_row view = some r ∧ r ∈ view ∧
      (∀ x ∈ view, x.date ≤ r.date) ∧
      (∀ p, latest_price_metric view = MetricVal.value p ↔
        r.averagePrice = some p) ∧
      (latest_price_metric view = MetricVal.na ↔ r.averagePrice = none) := by
  rcases latest_data_row_spec hne with ⟨r, hrow, hmem, hmax, -⟩
  refine ⟨r, hrow, hmem, hmax, ?_, ?_⟩
  · intro p
    simp only [latest_price_metric, hrow]
    cases hp : r.averagePrice <;> simp [hp]
  · simp only [latest_price_metric, hrow]
    cases hp : r.averagePrice <;> simp [hp]

/-- Witness for C3's amended statement on a concrete non-empty view. -/
theorem latest_row_is_max_date_row_witness :
    ∃ r, latest_data_row viewC3 = some r ∧ r ∈ viewC3 ∧
      (∀ x ∈ viewC3, x.date ≤ r.date) ∧
      (∀ p, latest_price_metric viewC3 = MetricVal.value p ↔
        r.averagePrice = some p) ∧
      (latest_price_metric viewC3 = MetricVal.na ↔ r.averagePrice = none) :=
  latest_row_is_max_date_row viewC3 (by decide)

/-- Claim C4 counterexample: a source with one unparseable date cell makes
the simple variant's whole load fail (`pd.to_datetime` is called with the
default `errors='raise'`), contradicting the claim that an unparseable date
never makes the load fail as a whole. -/
theorem app_loader_fails_on_one_bad_date :
    app_load_data [rawBad, rawGood] =
      Except.error "time data does not match format (to_datetime raised)" ∧
    ∀ recs, app_load_data [rawBad, rawGood] ≠ Except.ok recs := by
  refine ⟨rfl, fun recs h => ?_⟩
  rw [show app_load_data [rawBad, rawGood] =
      Except.error "time data does not match format (to_datetime raised)"
    from rfl] at h
  exact Except.noConfusion h

/-- Claim C4 (amended): the extended variant's loader drops each row whose
date cell does not parse and returns the remaining rows (dropping those rows
first changes nothing), and it never fails; the simple variant's loader
fails as a whole whenever any row's date cell does not parse. -/
theorem loader_date_failure_policy (rows : List RawRow) :
    dash_load_data rows =
      dash_load_data (rows.filter (fun r => r.dateCell.isSome)) ∧
    ((∃ r ∈ rows, r.dateCell = none) →
      ∀ recs, app_load_data rows ≠ Except.ok recs) := by
  constructor
  · induction rows with
    | nil => rfl
    | cons a t ih =>
      cases ha : a.dateCell with
      | none =>
        cases hreg : a.regionCell <;>
          simp [dash_load_data, List.filterMap_cons, List.filter_cons,
            ha, hreg] <;>
          simpa [dash_load_data] using ih
      | some d =>
        cases hreg : a.regionCell <;>
          simp [dash_load_data, List.filterMap_cons, List.filter_cons,
            ha, hreg] <;>
          simpa [dash_load_data] using ih
  · rintro ⟨r, hr, hnone⟩ recs h
    have hany : rows.any (fun r => r.dateCell.isNone) = true := by
      simp only [List.any_eq_true]
      exact ⟨r, hr, by simp [hnone]⟩
    simp [app_load_data, hany] at h

/-- Witness for C4's amended statement at a concrete raw source. -/
theorem loader_date_failure_policy_witness :
    app_load_data [rawBad, rawGood] ≠ Except.ok [] :=
  (loader_date_failure_policy [rawBad, rawGood]).2 ⟨rawBad, by simp, rfl⟩ []

/-- Claim C6: a view whose earliest qualifying (first non-null) price is 0
never yields a computed period change — the `start_price != 0` test guards
the division — and every computed period change comes from a nonzero
divisor, so no division by zero is ever evaluated. -/
theorem zero_start_price_guard (view : List Record)
    (h0 : spec_earliest_qualifying_price view = some 0)
    (_hl : (view.getLast?).bind Record.averagePrice ≠ none) :
    (∀ q, total_change_percent view ≠ PeriodChange.value q) ∧
    (∀ v (q : ℚ), total_change_percent v = PeriodChange.value q →
      ∃ sp ep, v.head?.bind Record.averagePrice = some sp ∧
        (v.getLast?).bind Record.averagePrice = some ep ∧
        sp ≠ 0 ∧ q = ((ep - sp) / sp) * 100) := by
  constructor
  · intro q hq
    rcases total_change_percent_eq_value_iff.mp hq with
      ⟨sp, ep, hsp, hep, hlen, hz, rfl⟩
    have h2 := spec_earliest_of_head hsp
    rw [h0] at h2
    injection h2 with h3
    exact hz h3.symm
  · intro v q hq
    rcases total_change_percent_eq_value_iff.mp hq with
      ⟨sp, ep, hsp, hep, hlen, hz, rfl⟩
    exact ⟨sp, ep, hsp, hep, hz, rfl⟩

/-- Witness for C6 on a concrete view whose earliest qualifying price is 0
and whose latest price is non-null. -/
theorem zero_start_price_guard_witness :
    total_change_percent viewC6 ≠ PeriodChange.value 7 :=
  (zero_start_price_guard viewC6 rfl (by decide)).1 7

/-- Claim C7: resolving the children of a static-hierarchy parent other than
the "All Data" sentinel yields its declared child list, lexicographically
sorted; resolving the "All Data" sentinel (and likewise the simple variant's
single-level region list) yields the lexicographically sorted set of the
distinct region names present in the dataset. -/
theorem child_region_resolution (df : List Record) (parent : String) :
    (∀ children, parent ≠ "All Data" →
      REGION_HIERARCHY.lookup parent = some children →
      ∃ out, available_cities parent df = some out ∧
        List.Sorted (fun a b : String => a ≤ b) out ∧ out.Perm children) ∧
    (parent = "All Data" →
      ∃ out, available_cities parent df = some out ∧
        List.Sorted (fun a b : String => a ≤ b) out ∧ out.Nodup ∧
        ∀ x, x ∈ out ↔ x ∈ df.map Record.regionName) := by
  constructor
  · intro children hne hlook
    refine ⟨sortedStr children, ?_, ?_, ?_⟩
    · simp [available_cities, hne, hlook]
    · exact List.sorted_insertionSort _ children
    · exact List.perm_insertionSort _ children
  · intro hall
    refine ⟨sortedStr ((df.map Record.regionName).dedup), ?_, ?_, ?_, ?_⟩
    · simp [available_cities, hall]
    · exact List.sorted_insertionSort _ _
    · exact (List.perm_insertionSort _ _).nodup_iff.mpr (List.nodup_dedup _)
    · intro x
      unfold sortedStr
      rw [(List.perm_insertionSort _ _).mem_iff]
      exact List.mem_dedup

/-- Witness for C7: the "Derbyshire" parent and the "All Data" sentinel on a
concrete dataset. -/
theorem child_region_resolution_witness :
    (∃ out, available_cities "Derbyshire" dsW = some out ∧
      List.Sorted (fun a b : String => a ≤ b) out ∧
      out.Perm ["Derby", "Amber Valley", "Bolsover", "Chesterfield",
        "Derbyshire Dales", "Erewash", "High Peak",
        "North East Derbyshire", "South Derbyshire"]) ∧
    (∃ out, available_cities "All Data" dsW = some out ∧
      List.Sorted (fun a b : String => a ≤ b) out ∧ out.Nodup ∧
      ∀ x, x ∈ out ↔ x ∈ dsW.map Record.regionName) :=
  ⟨(child_region_resolution dsW "Derbyshire").1 _ (by decide) rfl,
   (child_region_resolution dsW "All Data").2 rfl⟩

/-- Claim C8 counterexample: an inverted two-element range (start 5, end 3)
is passed through unchanged instead of being clamped to the dataset's full
bounds `(0, 10)`, and filtering with it yields an empty selection. -/
theorem inverted_range_not_clamped :
    (3 : Int) < 5 ∧
    resolve_date_range [5, 3] 0 10 = (5, 3) ∧
    resolve_date_range [5, 3] 0 10 ≠ (0, 10) ∧
    filtered_df_unsorted dsW "X" 5 3 = [] := by
  refine ⟨by norm_num, rfl, by decide, rfl⟩

/-- Claim C8 (amended): only a widget value that is not a two-element range
(the single-sided case) falls back to the dataset's full date bounds; a
two-element range is used exactly as supplied, even when inverted, in which
case the filter simply selects nothing. -/
theorem date_range_resolution (dr : List Int) (min_date max_date : Int) :
    (dr.length ≠ 2 →
      resolve_date_range dr min_date max_date = (min_date, max_date)) ∧
    (∀ s e, dr = [s, e] → resolve_date_range dr min_date max_date = (s, e)) ∧
    (∀ (df : List Record) (region : String) (s e : Int), e < s →
      filtered_df_unsorted df region s e = []) := by
  refine ⟨?_, ?_, ?_⟩
  · intro hlen
    rcases dr with _ | ⟨a, _ | ⟨b, _ | ⟨c, t⟩⟩⟩
    · rfl
    · rfl
    · simp at hlen
    · rfl
  · rintro s e rfl
    rfl
  · intro df region s e hlt
    simp only [filtered_df_unsorted, List.filter_eq_nil_iff]
    intro r hr
    simp only [decide_eq_true_eq]
    rintro ⟨-, h1, h2⟩
    omega

/-- Witness for C8's amended statement: a one-element selection falls back
to the full bounds, and an inverted range filters to the empty view. -/
theorem date_range_resolution_witness :
    resolve_date_range [7] 0 10 = (0, 10) ∧
    filtered_df_unsorted dsW "X" 4 2 = [] :=
  ⟨(date_range_resolution [7] 0 10).1 (by decide),
   (date_range_resolution [7] 0 10).2.2 dsW "X" 4 2 (by norm_num)⟩

/-- Claim C9: when the region has no matching rows or the date range lies
entirely outside the dataset's dates, the selection is empty and the
request's outcome is the distinct no-data response (not the rendered
dashboard, and no exception: the pipeline is a total function). -/
theorem empty_selection_outcome (df : List Record) (region : String)
    (s e : Int)
    (h : (∀ r ∈ df, r.regionName ≠ region) ∨
      (∀ r ∈ df, r.date < s ∨ e < r.date)) :
    filtered_df_unsorted df region s e = [] ∧
    app_outcome df region s e = Outcome.noData ∧
    Outcome.noData ≠ Outcome.rendered := by
  have hnil : filtered_df_unsorted df region s e = [] := by
    simp only [filtered_df_unsorted, List.filter_eq_nil_iff]
    intro r hr
    simp only [decide_eq_true_eq]
    rintro ⟨h1, h2, h3⟩
    rcases h with hreg | hdate
    · exact hreg r hr h1
    · rcases hdate r hr with h4 | h4 <;> omega
  refine ⟨hnil, ?_, by simp⟩
  simp [app_outcome, hnil]

/-- Witness for C9: a region absent from the dataset. -/
theorem empty_selection_outcome_witness :
    filtered_df_unsorted dsW "Z" 0 10 = [] ∧
    app_outcome dsW "Z" 0 10 = Outcome.noData ∧
    Outcome.noData ≠ Outcome.rendered :=
  empty_selection_outcome dsW "Z" 0 10 (Or.inl (by decide))

/-- Claim C10: a non-empty filtered view always has at least one row
attaining its maximum date, so the second "no data available" branch of the
extended variant is unreachable once the initial emptiness check passed. -/
theorem latest_rows_nonempty (view : List Record) (hne : view ≠ []) :
    latest_data_rows view ≠ [] := by
  rcases latest_data_row_spec hne with ⟨r, -, -, -, h⟩
  exact h

/-- Witness for C10 on a concrete non-empty view. -/
theorem latest_rows_nonempty_witness : latest_data_rows viewA ≠ [] :=
  latest_rows_nonempty viewA (by decide)

end HPI
